import Mathlib

/-!
Shallow embedding of `src/filters/trace.rs` from the `warp` repository:
the `tracing` instrumentation decorator for warp filters.

Modelling choices (all derived from the Rust source):

* The `tracing` subsystem's observable behaviour is captured by an explicit
  state `TraceCtx` threaded through every effectful operation.  It records
  the stack of currently-entered spans (`spanStack`, innermost first), the
  append-only log of emitted events (`events`), and the append-only log of
  created spans (`createdSpans`).  An `Event` remembers the span stack that
  was active at the moment of emission, which is how the `tracing` crate
  attributes an event to the current span.
* A Rust `Future` is embedded as a step machine `Fut σ α`: `poll` takes the
  machine state and the ambient `TraceCtx` and returns the new state, the
  new context and either `Poll.pending` or `Poll.ready a`.
* `http::HeaderValue` is a byte string; `to_str` succeeds exactly when every
  byte is visible ASCII (32 ≤ b < 127) or horizontal tab, as in the `http`
  crate.  `http::HeaderMap::get` returns the first value for a name.
* `http::Method`'s `Display` prints the token itself, so methods are plain
  strings.  `http::Version`'s `Debug` prints tokens such as `HTTP/1.1`.
  Rust's `Debug` for `&str` wraps the string in quotes, escaping `"` and
  `\` (other escapes do not matter for any claim and are left as-is).
* The ambient task-local `Route` that `route::with` exposes is passed as an
  explicit argument to `WithTrace.doFilter` (named `filter` in the source;
  renamed because the Lean structure field of the same name shadows it).
* Rust's `Result<T, E>` is `Except E T`; the one-element extraction tuple
  `(Traced,)` is flattened to `Traced`.
* `Reply::into_response` may itself emit `tracing` events, so the `Reply`
  class is effectful on `TraceCtx`; `IsReject` exposes the rejection's
  status code and its `Debug` rendering.
-/

/-- Severity levels of the `tracing` crate. -/
inductive Level
  | trace
  | debug
  | info
  | warn
  | error
deriving DecidableEq, Repr

/-- A value recorded in a span or event field: `tracing` records the
`response.status` as an integer (`as_u16`) and textual renderings as
strings. -/
inductive FieldValue
  | num (n : Nat)
  | str (s : String)
deriving DecidableEq, Repr

/-- The data of a `tracing` span: target, level, name and the fields
recorded at creation.  (`info_span!(target: "warp", "request", ...)`). -/
structure SpanData where
  target : String
  level : Level
  name : String
  fields : List (String × FieldValue)
deriving DecidableEq, Repr

/-- A `tracing` event: level, message, fields, and the span stack
(innermost first) that was entered at the moment of emission — this is how
the event is attributed to the current span. -/
structure Event where
  level : Level
  message : String
  fields : List (String × FieldValue)
  inSpans : List SpanData
deriving DecidableEq, Repr

/-- The observable state of the `tracing` subsystem: the stack of entered
spans, the log of emitted events and the log of created spans. -/
structure TraceCtx where
  spanStack : List SpanData
  events : List Event
  createdSpans : List SpanData
deriving DecidableEq, Repr

/-- The empty tracing state. -/
def TraceCtx.empty : TraceCtx := ⟨[], [], []⟩

/-- Entering a span (`Span::enter` / the scope part of `Span::in_scope`):
pushes the span onto the stack of active spans. -/
def TraceCtx.enter (ctx : TraceCtx) (span : SpanData) : TraceCtx :=
  { ctx with spanStack := span :: ctx.spanStack }

/-- Dropping the scope guard (`Entered`): pops the innermost span. -/
def TraceCtx.exitSpan (ctx : TraceCtx) : TraceCtx :=
  { ctx with spanStack := ctx.spanStack.tail }

/-- Emitting an event (`tracing::trace! / debug!`): appends an event
carrying the currently active span stack. -/
def TraceCtx.emit (ctx : TraceCtx) (lvl : Level) (msg : String)
    (fields : List (String × FieldValue)) : TraceCtx :=
  { ctx with events := ctx.events ++ [⟨lvl, msg, fields, ctx.spanStack⟩] }

/-- Creating a span (the `info_span!` / `debug_span!` macros call the
subscriber's `new_span`): appends it to the creation log and returns it. -/
def TraceCtx.newSpan (ctx : TraceCtx) (sp : SpanData) : TraceCtx × SpanData :=
  ({ ctx with createdSpans := ctx.createdSpans ++ [sp] }, sp)

/-- `std::task::Poll`. -/
inductive Poll (α : Type)
  | pending
  | ready (a : α)
deriving DecidableEq, Repr

/-- A Rust `Future` as a step machine: one `poll` advances the machine
state `σ` and the ambient tracing state and either suspends or completes. -/
structure Fut (σ α : Type) where
  poll : σ → TraceCtx → σ × TraceCtx × Poll α

/-- `tracing_futures::Instrumented` — `Instrument::instrument(fut, span)`.
Its `poll` enters the span, polls the inner future, and releases the scope
guard when the poll returns, whether it suspended or completed. -/
def Fut.instrument (f : Fut σ α) (span : SpanData) : Fut σ α :=
  ⟨fun s ctx =>
    let r := f.poll s (ctx.enter span)
    (r.1, r.2.1.exitSpan, r.2.2)⟩

/-- `futures::future::Map`: when the inner future completes, apply the
(possibly event-emitting) function to the result. -/
def Fut.map (f : Fut σ α) (g : α → TraceCtx → TraceCtx × β) : Fut σ β :=
  ⟨fun s ctx =>
    match f.poll s ctx with
    | (s', ctx', Poll.pending) => (s', ctx', Poll.pending)
    | (s', ctx', Poll.ready a) =>
      let p := g a ctx'
      (s', p.1, Poll.ready p.2)⟩

/-- An `http::HeaderValue`: an opaque byte string. -/
structure HeaderValue where
  bytes : List Nat
deriving DecidableEq, Repr

/-- The `http` crate's visible-ASCII test used by `HeaderValue::to_str`:
a byte is allowed iff it is in `32..127` or is horizontal tab. -/
def visibleAscii (b : Nat) : Bool := (32 ≤ b && b < 127) || b == 9

/-- `http::HeaderValue::to_str`: `Ok` with the decoded text iff every byte
is visible ASCII, `Err` (here `none`) otherwise. -/
def HeaderValue.to_str (v : HeaderValue) : Option String :=
  if v.bytes.all visibleAscii then some ⟨v.bytes.map Char.ofNat⟩ else none

/-- `http::HeaderMap::get`: the first value stored under the name. -/
def headerGet (hs : List (String × HeaderValue)) (name : String) :
    Option HeaderValue :=
  (hs.find? (fun p => p.1 == name)).map (·.2)

/-- `http::Version`. -/
inductive Version
  | http09
  | http10
  | http11
  | h2
  | h3
deriving DecidableEq, Repr

/-- The `Debug` rendering of `http::Version`. -/
def Version.debugRender : Version → String
  | Version.http09 => "HTTP/0.9"
  | Version.http10 => "HTTP/1.0"
  | Version.http11 => "HTTP/1.1"
  | Version.h2 => "HTTP/2.0"
  | Version.h3 => "HTTP/3.0"

/-- Rust's `Debug` rendering of a `&str`: the text in quotes with `"` and
`\` escaped (other escape rules are irrelevant to the claims). -/
def rustDebugStr (s : String) : String :=
  "\"" ++ String.join (s.toList.map (fun c =>
    if c = '"' then "\\\"" else if c = '\\' then "\\\\" else String.mk [c]))
    ++ "\""

/-- The per-request `Route` data that `route::with` exposes: method, full
path, version, optional remote address and the header map. -/
structure Route where
  method : String
  full_path : String
  version : Version
  remote_addr : Option String
  headers : List (String × HeaderValue)
deriving DecidableEq, Repr

/-- `trace::Info`: a read-only view over the ambient `Route`. -/
structure Info where
  route : Route
deriving DecidableEq, Repr

/-- `Info::remote_addr`. -/
def Info.remote_addr (i : Info) : Option String := i.route.remote_addr

/-- `Info::method`. -/
def Info.method (i : Info) : String := i.route.method

/-- `Info::path` — `self.route.full_path()`. -/
def Info.path (i : Info) : String := i.route.full_path

/-- `Info::version`. -/
def Info.version (i : Info) : Version := i.route.version

/-- `Info::referer` — `headers().get(REFERER).and_then(|v| v.to_str().ok())`. -/
def Info.referer (i : Info) : Option String :=
  (headerGet i.route.headers "referer").bind HeaderValue.to_str

/-- `Info::user_agent` — same with the `user-agent` header. -/
def Info.user_agent (i : Info) : Option String :=
  (headerGet i.route.headers "user-agent").bind HeaderValue.to_str

/-- `Info::host` — same with the `host` header. -/
def Info.host (i : Info) : Option String :=
  (headerGet i.route.headers "host").bind HeaderValue.to_str

/-- `Info::headers`. -/
def Info.headers (i : Info) : List (String × HeaderValue) := i.route.headers

/-- The span factory type `Fn(Info<'_>) -> tracing::Span`: creating a span
registers it with the subscriber, hence the factory is effectful on
`TraceCtx`. -/
def SpanFactory : Type := Info → TraceCtx → TraceCtx × SpanData

/-- `trace::Trace` — the decorator storing the span factory. -/
structure Trace where
  func : SpanFactory

/-- `warp::trace::trace(func)` — wraps the factory in a `Trace` value. -/
def trace (func : SpanFactory) : Trace := ⟨func⟩

/-- `warp::trace::request()` — `info_span!(target: "warp", "request",
method = %route.method(), path = ?route.path(), version = ?route.version())`. -/
def request : Trace :=
  trace (fun route ctx =>
    ctx.newSpan
      { target := "warp"
        level := Level.info
        name := "request"
        fields :=
          [("method", FieldValue.str route.method),
           ("path", FieldValue.str (rustDebugStr route.path)),
           ("version", FieldValue.str route.version.debugRender)] })

/-- `warp::trace::context(name)` — `debug_span!(target: "warp", "context",
"{}", name)`: the positional format argument becomes the `message` field. -/
def context (name : String) : Trace :=
  trace (fun _ ctx =>
    ctx.newSpan
      { target := "warp"
        level := Level.debug
        name := "context"
        fields := [("message", FieldValue.str name)] })

/-- `http::Response` reduced to the parts the module observes: status code
(`as_u16`) and body. -/
structure Response where
  status : Nat
  body : String
deriving DecidableEq, Repr

/-- `warp::reply::Reply`: materialize a reply into its final `Response`.
`into_response` may perform tracing side effects of its own, so it is
effectful on `TraceCtx`. -/
class Reply (R : Type) where
  into_response : R → TraceCtx → TraceCtx × Response

/-- `warp::reject::IsReject`: a rejection's status code and its `Debug`
rendering. -/
class IsReject (E : Type) where
  status : E → Nat
  debugRender : E → String

/-- `internal::Traced` — a reply that has passed through instrumentation,
holding the already-materialized `Response`. -/
structure Traced where
  resp : Response
deriving DecidableEq, Repr

/-- `impl Reply for Traced`: `into_response(self) = self.0`, with no
further effect. -/
instance : Reply Traced := ⟨fun t ctx => (ctx, t.resp)⟩

/-- `Traced::map_result`: on `Ok`, materialize the reply, emit a
debug-level event with field `response.status`, and rewrap as `Traced`;
on `Err`, emit a trace-level event with `response.status` and
`response.error` and propagate the rejection unchanged. -/
def Traced.map_result [Reply R] [IsReject E] (res : Except E R)
    (ctx : TraceCtx) : TraceCtx × Except E Traced :=
  match res with
  | Except.ok reply =>
    let p := Reply.into_response reply ctx
    (p.1.emit Level.debug "" [("response.status", FieldValue.num p.2.status)],
     Except.ok ⟨p.2⟩)
  | Except.error reject =>
    (ctx.emit Level.trace ""
      [("response.status", FieldValue.num (IsReject.status reject)),
       ("response.error", FieldValue.str (IsReject.debugRender reject))],
     Except.error reject)

/-- A warp `Filter` reduced to what the module uses: `filter()` is a
synchronous, possibly effectful call that returns the future computing
`Result<Extract, Error>`.  The ambient `Route` is passed explicitly. -/
structure FilterM (σ E R : Type) where
  filter : Route → TraceCtx → TraceCtx × Fut σ (Except E R)

/-- `internal::WithTrace` — the wrapped filter, storing the inner filter
and the `Trace` decorator. -/
structure WithTrace (σ E R : Type) where
  filter : FilterM σ E R
  trace : Trace

/-- `impl WrapSealed for Trace`: `wrap(&self, filter)` just stores the two
components. -/
def Trace.wrap (t : Trace) (f : FilterM σ E R) : WithTrace σ E R :=
  ⟨f, t⟩

/-- `WithTrace::filter` (renamed: the structure field `filter` shadows the
name): build the span from the ambient route, then, inside `in_scope`,
emit `trace!("received request")` and call the inner `filter()`; finally
map the future's result through `Traced::map_result` and instrument the
whole future with the span. -/
def WithTrace.doFilter [Reply R] [IsReject E] (w : WithTrace σ E R)
    (route : Route) (ctx : TraceCtx) :
    TraceCtx × Fut σ (Except E Traced) :=
  let p := w.trace.func ⟨route⟩ ctx
  let span := p.2
  let ctx1 := (p.1.enter span).emit Level.trace "received request" []
  let q := w.filter.filter route ctx1
  (q.1.exitSpan, (q.2.map Traced.map_result).instrument span)

/-- Well-formed future: each poll leaves the span stack as it found it and
only appends events, each tagged with a span stack extending the ambient
one (what every combination of `in_scope`, event emission and instrumented
sub-futures produces). -/
def Fut.WF (f : Fut σ α) : Prop :=
  ∀ s ctx, ((f.poll s ctx).2.1.spanStack = ctx.spanStack) ∧
    ∃ new, (f.poll s ctx).2.1.events = ctx.events ++ new ∧
      ∀ e ∈ new, ctx.spanStack.IsSuffix e.inSpans

/-- Well-formed filter: the synchronous `filter()` call preserves the span
stack, only appends events tagged with an extension of the ambient stack,
and only appends created spans. -/
def FilterM.WF (fl : FilterM σ E R) : Prop :=
  ∀ route ctx, ((fl.filter route ctx).1.spanStack = ctx.spanStack) ∧
    (∃ evs, (fl.filter route ctx).1.events = ctx.events ++ evs ∧
      ∀ e ∈ evs, ctx.spanStack.IsSuffix e.inSpans) ∧
    (∃ sps, (fl.filter route ctx).1.createdSpans = ctx.createdSpans ++ sps)

/-- Canonical span factory: invoking it registers exactly the returned
span and has no other effect (true of `request()` and `context(name)`). -/
def SpanFactory.Canonical (fn : SpanFactory) : Prop :=
  ∀ info ctx, fn info ctx = ctx.newSpan (fn info ctx).2

/-- Number of `"received request"` events in a log. -/
def countReceived (evs : List Event) : Nat :=
  (evs.filter (fun e => e.message == "received request")).length

/-- The outcome kind of a poll result over `Except`: still pending,
succeeded, or rejected. -/
inductive PollKind
  | pending
  | ok
  | err
deriving DecidableEq, Repr

/-- Project a poll result to its outcome kind. -/
def pollKind : Poll (Except E α) → PollKind
  | Poll.pending => PollKind.pending
  | Poll.ready (Except.ok _) => PollKind.ok
  | Poll.ready (Except.error _) => PollKind.err

/-- Project a poll result to the rejection it carries, if any. -/
def errOf : Poll (Except E α) → Option E
  | Poll.ready (Except.error e) => some e
  | _ => none

/-- A concrete reply type: a text body served with status 200. -/
structure TextReply where
  text : String
deriving DecidableEq, Repr

instance : Reply TextReply := ⟨fun r ctx => (ctx, ⟨200, r.text⟩)⟩

/-- A reply whose `into_response` emits a marker event before returning
its response — used to observe how often materialization runs. -/
structure MarkedReply where
  resp : Response
deriving DecidableEq, Repr

instance : Reply MarkedReply :=
  ⟨fun r ctx => (ctx.emit Level.info "into_response" [], r.resp)⟩

/-- A concrete rejection type carrying a status code and a cause. -/
structure Rejection where
  code : Nat
  cause : String
deriving DecidableEq, Repr

instance : IsReject Rejection :=
  ⟨Rejection.code, fun r => "Rejection(" ++ toString r.code ++ ", " ++ r.cause ++ ")"⟩

/-- A concrete one-step future that emits one event and completes. -/
def emitFut : Fut Unit Nat :=
  ⟨fun s ctx => (s, ctx.emit Level.info "step" [], Poll.ready 0)⟩

/-- A concrete inner filter whose `filter()` has no effect and whose
future completes immediately with a 200 text reply. -/
def readyFilter : FilterM Unit Rejection TextReply :=
  ⟨fun _ ctx => (ctx, ⟨fun s c => (s, c, Poll.ready (Except.ok ⟨"ok"⟩))⟩)⟩

/-- A concrete span. -/
def sampleSpan : SpanData := ⟨"warp", Level.info, "request", []⟩

/-- A concrete route: `referer` and `host` hold visible-ASCII bytes,
`user-agent` holds a NUL byte (not representable as text). -/
def sampleRoute : Route :=
  ⟨"GET", "/hello", Version.http11, none,
   [("host", ⟨[101, 120]⟩), ("referer", ⟨[104, 105]⟩), ("user-agent", ⟨[0]⟩)]⟩

/-! ## Helper lemmas -/

theorem countReceived_append (a b : List Event) :
    countReceived (a ++ b) = countReceived a + countReceived b := by
  simp [countReceived, List.filter_append]

theorem countReceived_eq_zero (evs : List Event)
    (h : ∀ e ∈ evs, e.message ≠ "received request") : countReceived evs = 0 := by
  simp only [countReceived, List.length_eq_zero, List.filter_eq_nil_iff]
  intro e he
  simpa using h e he

theorem emitFut_wf : emitFut.WF := by
  intro s ctx
  refine ⟨rfl, [⟨Level.info, "step", [], ctx.spanStack⟩], rfl, ?_⟩
  intro e he
  simp only [List.mem_singleton] at he
  subst he
  exact List.suffix_refl _

theorem readyFilter_wf : readyFilter.WF := by
  intro route ctx
  exact ⟨rfl, ⟨[], by simp [readyFilter], by simp⟩, ⟨[], by simp [readyFilter]⟩⟩

theorem bind_to_str_spec (o : Option HeaderValue) :
    (∀ s, o.bind HeaderValue.to_str = some s ↔
      ∃ v, o = some v ∧ v.to_str = some s) ∧
    (o = none → o.bind HeaderValue.to_str = none) ∧
    (∀ v, o = some v → v.to_str = none → o.bind HeaderValue.to_str = none) := by
  cases o <;> simp

/-! ## Claims -/

/-- C1: polling the instrumented future enters the span's scope immediately
before each step of the inner future and releases it immediately after:
every event emitted during any step (first poll or any later resumption)
carries the span among its active spans, and the span stack after the poll
equals the one before it, so the span is not active between resumptions. -/
theorem instrumented_poll_brackets_span (f : Fut σ α) (hf : f.WF)
    (span : SpanData) (s : σ) (ctx : TraceCtx) :
    ((f.instrument span).poll s ctx =
      (let r := f.poll s (ctx.enter span); (r.1, r.2.1.exitSpan, r.2.2))) ∧
    ((f.instrument span).poll s ctx).2.1.spanStack = ctx.spanStack ∧
    ∃ new, ((f.instrument span).poll s ctx).2.1.events = ctx.events ++ new ∧
      ∀ e ∈ new, span ∈ e.inSpans := by
  obtain ⟨hstack, new, hev, hmem⟩ := hf s (ctx.enter span)
  refine ⟨rfl, ?_, new, ?_, ?_⟩
  · show ((f.poll s (ctx.enter span)).2.1.exitSpan).spanStack = ctx.spanStack
    simp only [TraceCtx.exitSpan]
    rw [hstack]
    rfl
  · show ((f.poll s (ctx.enter span)).2.1.exitSpan).events = ctx.events ++ new
    simpa [TraceCtx.exitSpan, TraceCtx.enter] using hev
  · intro e he
    exact (hmem e he).subset (List.mem_cons_self span ctx.spanStack)

/-- Witness for C1 at a concrete future, span and context. -/
theorem instrumented_poll_brackets_span_witness :
    ((emitFut.instrument sampleSpan).poll () TraceCtx.empty).2.1.spanStack =
      TraceCtx.empty.spanStack ∧
    ∃ new, ((emitFut.instrument sampleSpan).poll () TraceCtx.empty).2.1.events =
      TraceCtx.empty.events ++ new ∧ ∀ e ∈ new, sampleSpan ∈ e.inSpans :=
  (instrumented_poll_brackets_span emitFut emitFut_wf sampleSpan () TraceCtx.empty).2

/-- C2: on a successful result, `Traced::map_result` materializes the reply
once, emits one debug-severity event whose `response.status` field is the
status of that materialized response, and returns the reply rewrapped as a
`Traced` whose `into_response` yields that identical response. -/
theorem map_result_success_records_status [Reply R] [IsReject E]
    (reply : R) (ctx : TraceCtx) :
    (Traced.map_result (E := E) (Except.ok reply) ctx).1.events =
      (Reply.into_response reply ctx).1.events ++
        [⟨Level.debug, "",
          [("response.status",
            FieldValue.num (Reply.into_response reply ctx).2.status)],
          (Reply.into_response reply ctx).1.spanStack⟩] ∧
    (Traced.map_result (E := E) (Except.ok reply) ctx).2 =
      Except.ok ⟨(Reply.into_response reply ctx).2⟩ ∧
    ∀ c, Reply.into_response (Traced.mk (Reply.into_response reply ctx).2) c =
      (c, (Reply.into_response reply ctx).2) :=
  ⟨rfl, rfl, fun _ => rfl⟩

/-- C3: on a rejected result, `Traced::map_result` emits one trace-severity
event with fields `response.status` (the rejection's status code) and
`response.error` (the rejection's `Debug` rendering), and returns the
original rejection unchanged, not rewrapped. -/
theorem map_result_failure_propagates [Reply R] [IsReject E]
    (reject : E) (ctx : TraceCtx) :
    (Traced.map_result (R := R) (Except.error reject) ctx).1.events =
      ctx.events ++
        [⟨Level.trace, "",
          [("response.status", FieldValue.num (IsReject.status reject)),
           ("response.error", FieldValue.str (IsReject.debugRender reject))],
          ctx.spanStack⟩] ∧
    (Traced.map_result (R := R) (Except.error reject) ctx).2 =
      Except.error reject :=
  ⟨rfl, rfl⟩

/-- C4: the full wrapped future (inner future mapped through
`Traced::map_result` and instrumented with the span) preserves the outcome
kind of every poll of the inner future — pending stays pending, success
stays success, rejection stays rejection — and carries the very same
rejection value of the inner filter's error type when it rejects. -/
theorem wrapped_future_preserves_outcome_kind [Reply R] [IsReject E]
    (f : Fut σ (Except E R)) (span : SpanData) (s : σ) (ctx : TraceCtx) :
    pollKind (((f.map Traced.map_result).instrument span).poll s ctx).2.2 =
      pollKind ((f.poll s (ctx.enter span)).2.2) ∧
    errOf (((f.map Traced.map_result).instrument span).poll s ctx).2.2 =
      errOf ((f.poll s (ctx.enter span)).2.2) := by
  rcases h : f.poll s (ctx.enter span) with ⟨s', ctx', p⟩
  cases p with
  | pending => simp [Fut.instrument, Fut.map, h, pollKind, errOf]
  | ready a =>
    cases a with
    | ok r => simp [Fut.instrument, Fut.map, h, pollKind, errOf, Traced.map_result]
    | error e => simp [Fut.instrument, Fut.map, h, pollKind, errOf, Traced.map_result]

/-- C5: for every request entering the wrapped filter, `WithTrace::filter`
invokes the span factory exactly once (its single span registration is the
first effect), and emits exactly one trace-severity "received request"
event, tagged with the freshly created span entered on top of the ambient
stack — all synchronously, before the returned future is ever polled, hence
independently of the request's eventual success, failure or abandonment. -/
theorem doFilter_emits_one_received_request [Reply R] [IsReject E]
    (fn : SpanFactory) (hfn : fn.Canonical)
    (fl : FilterM σ E R) (hfl : fl.WF) (route : Route) (ctx : TraceCtx) :
    ∃ innerEvs innerSps,
      ((((trace fn).wrap fl).doFilter route ctx).1.events =
        ctx.events ++
          [⟨Level.trace, "received request", [],
            (fn ⟨route⟩ ctx).2 :: ctx.spanStack⟩] ++ innerEvs) ∧
      ((((trace fn).wrap fl).doFilter route ctx).1.createdSpans =
        ctx.createdSpans ++ [(fn ⟨route⟩ ctx).2] ++ innerSps) ∧
      ((((trace fn).wrap fl).doFilter route ctx).1.spanStack = ctx.spanStack) ∧
      ((∀ e ∈ innerEvs, e.message ≠ "received request") →
        countReceived ((((trace fn).wrap fl).doFilter route ctx).1.events) =
          countReceived ctx.events + 1) := by
  have hp := hfn ⟨route⟩ ctx
  simp only [Trace.wrap, trace, WithTrace.doFilter]
  set sp := (fn ⟨route⟩ ctx).2 with hsp
  rw [hp]
  set ctx1 := (((ctx.newSpan sp).1).enter sp).emit Level.trace "received request" []
    with hctx1
  obtain ⟨hstack, ⟨evs, hev, -⟩, sps, hsps⟩ := hfl route ctx1
  have hev' : (fl.filter route ctx1).1.exitSpan.events =
      ctx.events ++ [⟨Level.trace, "received request", [], sp :: ctx.spanStack⟩]
        ++ evs := by
    simp only [TraceCtx.exitSpan]
    rw [hev]
    simp [hctx1, TraceCtx.emit, TraceCtx.enter, TraceCtx.newSpan]
  refine ⟨evs, sps, hev', ?_, ?_, ?_⟩
  · simp only [TraceCtx.exitSpan]
    rw [hsps]
    simp [hctx1, TraceCtx.emit, TraceCtx.enter, TraceCtx.newSpan]
  · simp only [TraceCtx.exitSpan]
    rw [hstack]
    simp [hctx1, TraceCtx.emit, TraceCtx.enter, TraceCtx.newSpan]
  · intro h
    rw [hev', countReceived_append, countReceived_append,
      countReceived_eq_zero evs h]
    simp [countReceived]

/-- Witness for C5 at a concrete factory, inner filter, route and state. -/
theorem doFilter_emits_one_received_request_witness :
    ∃ innerEvs innerSps,
      ((((trace ((context "demo").func)).wrap readyFilter).doFilter sampleRoute
          TraceCtx.empty).1.events =
        TraceCtx.empty.events ++
          [⟨Level.trace, "received request", [],
            (((context "demo").func) ⟨sampleRoute⟩ TraceCtx.empty).2 ::
              TraceCtx.empty.spanStack⟩] ++ innerEvs) ∧
      ((((trace ((context "demo").func)).wrap readyFilter).doFilter sampleRoute
          TraceCtx.empty).1.createdSpans =
        TraceCtx.empty.createdSpans ++
          [(((context "demo").func) ⟨sampleRoute⟩ TraceCtx.empty).2] ++
          innerSps) ∧
      ((((trace ((context "demo").func)).wrap readyFilter).doFilter sampleRoute
          TraceCtx.empty).1.spanStack = TraceCtx.empty.spanStack) ∧
      ((∀ e ∈ innerEvs, e.message ≠ "received request") →
        countReceived ((((trace ((context "demo").func)).wrap
            readyFilter).doFilter sampleRoute TraceCtx.empty).1.events) =
          countReceived TraceCtx.empty.events + 1) :=
  doFilter_emits_one_received_request ((context "demo").func)
    (fun _ _ => rfl) readyFilter readyFilter_wf sampleRoute TraceCtx.empty

/-- C6: `request()`'s factory registers, for any request view, an
info-severity span named "request" with target "warp" whose fields are
exactly `method` (display rendering), `path` (debug rendering) and
`version` (debug rendering), all taken from the view. -/
theorem request_span_shape (route : Route) (ctx : TraceCtx) :
    request.func ⟨route⟩ ctx =
      ctx.newSpan
        { target := "warp"
          level := Level.info
          name := "request"
          fields :=
            [("method", FieldValue.str (Info.method ⟨route⟩)),
             ("path", FieldValue.str (rustDebugStr (Info.path ⟨route⟩))),
             ("version",
              FieldValue.str (Info.version ⟨route⟩).debugRender)] } :=
  rfl

/-- C7: for any constant name, `context(name)`'s factory produces the same
result on any two request views — a debug-severity span named "context"
whose only field is the constant string `name`. -/
theorem context_span_constant (name : String) (v1 v2 : Info) (ctx : TraceCtx) :
    ((context name).func v1 ctx = (context name).func v2 ctx) ∧
    (context name).func v1 ctx =
      ctx.newSpan
        { target := "warp"
          level := Level.debug
          name := "context"
          fields := [("message", FieldValue.str name)] } :=
  ⟨rfl, rfl⟩

/-- C8: `referer()`, `user_agent()` and `host()` each look up exactly one
well-known header; they return its text iff the header is present and its
value is representable as text, and return `none` (not a failure) when the
header is absent or its value is not text. -/
theorem header_accessors_single_lookup (r : Route) :
    (Info.referer ⟨r⟩ =
      (headerGet r.headers "referer").bind HeaderValue.to_str) ∧
    (Info.user_agent ⟨r⟩ =
      (headerGet r.headers "user-agent").bind HeaderValue.to_str) ∧
    (Info.host ⟨r⟩ = (headerGet r.headers "host").bind HeaderValue.to_str) ∧
    (∀ s, Info.referer ⟨r⟩ = some s ↔
      ∃ v, headerGet r.headers "referer" = some v ∧ v.to_str = some s) ∧
    (∀ s, Info.user_agent ⟨r⟩ = some s ↔
      ∃ v, headerGet r.headers "user-agent" = some v ∧ v.to_str = some s) ∧
    (∀ s, Info.host ⟨r⟩ = some s ↔
      ∃ v, headerGet r.headers "host" = some v ∧ v.to_str = some s) ∧
    (headerGet r.headers "referer" = none → Info.referer ⟨r⟩ = none) ∧
    (headerGet r.headers "user-agent" = none → Info.user_agent ⟨r⟩ = none) ∧
    (headerGet r.headers "host" = none → Info.host ⟨r⟩ = none) ∧
    (∀ v, headerGet r.headers "referer" = some v → v.to_str = none →
      Info.referer ⟨r⟩ = none) ∧
    (∀ v, headerGet r.headers "user-agent" = some v → v.to_str = none →
      Info.user_agent ⟨r⟩ = none) ∧
    (∀ v, headerGet r.headers "host" = some v → v.to_str = none →
      Info.host ⟨r⟩ = none) := by
  refine ⟨rfl, rfl, rfl, ?_, ?_, ?_, ?_, ?_, ?_, ?_, ?_, ?_⟩
  · exact (bind_to_str_spec (headerGet r.headers "referer")).1
  · exact (bind_to_str_spec (headerGet r.headers "user-agent")).1
  · exact (bind_to_str_spec (headerGet r.headers "host")).1
  · exact (bind_to_str_spec (headerGet r.headers "referer")).2.1
  · exact (bind_to_str_spec (headerGet r.headers "user-agent")).2.1
  · exact (bind_to_str_spec (headerGet r.headers "host")).2.1
  · exact (bind_to_str_spec (headerGet r.headers "referer")).2.2
  · exact (bind_to_str_spec (headerGet r.headers "user-agent")).2.2
  · exact (bind_to_str_spec (headerGet r.headers "host")).2.2

/-- Witness for C8 on a concrete route: a text referer, a text host, and a
non-text user-agent value. -/
theorem header_accessors_single_lookup_witness :
    Info.referer ⟨sampleRoute⟩ = some "hi" ∧
    Info.user_agent ⟨sampleRoute⟩ = none ∧
    Info.host ⟨sampleRoute⟩ = some "ex" := by
  have h := header_accessors_single_lookup sampleRoute
  refine ⟨?_, ?_, ?_⟩
  · exact (h.2.2.2.1 "hi").mpr ⟨⟨[104, 105]⟩, by decide, by decide⟩
  · exact h.2.2.2.2.2.2.2.2.2.2.1 ⟨[0]⟩ (by decide) (by decide)
  · exact (h.2.2.2.2.2.1 "ex").mpr ⟨⟨[101, 120]⟩, by decide, by decide⟩

/-- C9: `trace(func)` and `Trace::wrap` only store their arguments: the
factory and the inner filter are kept intact and nothing else happens.  In
this embedding every tracing effect threads a `TraceCtx`; neither
constructor touches one, so no span is created, the factory is not invoked
and no event is emitted at construction or wrap time — the factory is first
applied inside `WithTrace.doFilter`. -/
theorem trace_wrap_only_store (fn : SpanFactory) (fl : FilterM σ E R) :
    ((trace fn).func = fn) ∧
    (((trace fn).wrap fl).filter = fl) ∧
    (((trace fn).wrap fl).trace = trace fn) :=
  ⟨rfl, rfl, rfl⟩

/-- C10: on success, `Traced::map_result` materializes the reply by exactly
one `into_response` call: its whole result — recorded status, emitted
effects and the `Traced` rewrap — is determined by that single
materialization, and a reply whose `into_response` emits a marker event
contributes exactly one marker to the log, directly before the status
event. -/
theorem map_result_single_materialization [Reply R] [IsReject E]
    (reply : R) (ctx : TraceCtx) :
    (Traced.map_result (E := E) (Except.ok reply) ctx =
      ((Reply.into_response reply ctx).1.emit Level.debug ""
        [("response.status",
          FieldValue.num (Reply.into_response reply ctx).2.status)],
       Except.ok ⟨(Reply.into_response reply ctx).2⟩)) ∧
    (∀ (m : MarkedReply) (c : TraceCtx),
      (Traced.map_result (E := E) (Except.ok m) c).1.events =
        c.events ++
          [⟨Level.info, "into_response", [], c.spanStack⟩,
           ⟨Level.debug, "",
            [("response.status", FieldValue.num m.resp.status)],
            c.spanStack⟩] ∧
      (Traced.map_result (E := E) (Except.ok m) c).2 = Except.ok ⟨m.resp⟩) := by
  refine ⟨rfl, fun m c => ⟨?_, rfl⟩⟩
  have hm : Reply.into_response m c = (c.emit Level.info "into_response" [], m.resp) :=
    rfl
  simp [Traced.map_result, hm, TraceCtx.emit]
